import Mathlib

/-!
Shallow embedding of `src/main_integer.c` (FreeRTOS Win32 integer-math demo):
the worker task `vCompeteingIntMathTask`, the liveness registry
(`xTaskCheck` array with `xAreIntegerMathsTaskStillRunning` as read-and-clear
sweep), the monitor task `prvMonitorTask`, the timer callback
`prvMonitorTimerCallback` and the keyboard handler
`vIntegerKeyboardInterruptHandler`.
-/

namespace IntegerMathDemo

/-! ### Constants (lines 46-67 of main_integer.c) -/

def intgCONST1 : Int := 123

def intgCONST2 : Int := 234567

def intgCONST3 : Int := -3

def intgCONST4 : Int := 7

/-- The `intgEXPECTED_ANSWER` macro: `((intgCONST1 + intgCONST2) * intgCONST3) / intgCONST4`,
with C signed division (truncation toward zero), i.e. `Int.tdiv`. -/
def intgEXPECTED_ANSWER : Int :=
  Int.tdiv ((intgCONST1 + intgCONST2) * intgCONST3) intgCONST4

def intgNUMBER_OF_TASKS : Nat := 1

def mainSTATUS_KEY : Char := 's'

def mainRESTART_KEY : Char := 'r'

/-! ### Worker unit (`vCompeteingIntMathTask`, lines 109-166) -/

/-- One iteration's computation of `lValue` (lines 127-139):
`lValue = intgCONST1; lValue += intgCONST2; lValue *= intgCONST3; lValue /= intgCONST4`,
with C truncating signed division. -/
def intMathCalculation : Int :=
  let lValue := intgCONST1
  let lValue := lValue + intgCONST2
  let lValue := lValue * intgCONST3
  Int.tdiv lValue intgCONST4

/-- One iteration of the worker loop body (lines 141-157), abstracted over the
computed `lValue` so corrupted computations can be injected: if the value is
wrong, latch `sError`; if no error is latched, write `true` into the task's
check slot. Returns the new `(sError, taskHasExecuted)` pair. -/
def vCompeteingIntMathTaskStep (lValue : Int) (sError slot : Bool) : Bool × Bool :=
  let sError2 := if lValue ≠ intgEXPECTED_ANSWER then true else sError
  let slot2 := if sError2 = false then true else slot
  (sError2, slot2)

/-- Run of the worker loop over a list of computed values, threading the
`sError` latch and the `taskHasExecuted` slot. -/
def vCompeteingIntMathTaskRun : List Int → Bool → Bool → Bool × Bool
  | [], sError, slot => (sError, slot)
  | v :: rest, sError, slot =>
      let st := vCompeteingIntMathTaskStep v sError slot
      vCompeteingIntMathTaskRun rest st.1 st.2

/-! ### Liveness registry (`xTaskCheck` array, `xAreIntegerMathsTaskStillRunning`,
lines 86 and 170-191) -/

/-- The loop body of `xAreIntegerMathsTaskStillRunning` (lines 177-188): walk
the slots with the running `xReturn` accumulator (initially `pdTRUE`); each
`false` slot forces `xReturn` to `false`, and every slot is reset
to `false`. Returns `(xReturn, cleared slots)`. -/
def sweepLoop : List Bool → Bool → Bool × List Bool
  | [], xReturn => (xReturn, [])
  | b :: rest, xReturn =>
      let xReturn2 := if b = false then false else xReturn
      let p := sweepLoop rest xReturn2
      (p.1, false :: p.2)

/-- Function `xAreIntegerMathsTaskStillRunning` (lines 170-191): the registry sweep,
read-and-clear over the whole `xTaskCheck` array. -/
def xAreIntegerMathsTaskStillRunning (xTaskCheck : List Bool) : Bool × List Bool :=
  sweepLoop xTaskCheck true

/-- The worker's liveness signal (lines 154-156): `*pxTaskHasExecuted = pdTRUE`
for task `i`, performed inside a critical section (hence one atomic event). -/
def taskSignal (xTaskCheck : List Bool) (i : Nat) : List Bool :=
  xTaskCheck.set i true

/-! ### Demo state shared by monitor, timer callback and keyboard handler -/

/-- The shared mutable state of the demo: the `xTaskCheck` slots, the
`xPerformStatusCheck` flag, the monitor's `ulStatusCheckCount` (a `uint32_t`,
kept below `2 ^ 32`), and the number of tasks created so far (to express that
no handler spawns a task). -/
structure DemoState where
  xTaskCheck : List Bool
  xPerformStatusCheck : Bool
  ulStatusCheckCount : Nat
  uxTasksCreated : Nat
deriving DecidableEq

/-- Model of `vStartIntegerMathTasks` (lines 98-106): creates `intgNUMBER_OF_TASKS`
worker tasks. Only the task count is modelled; the slots start `pdFALSE`. -/
def vStartIntegerMathTasks (s : DemoState) : DemoState :=
  { s with uxTasksCreated := s.uxTasksCreated + intgNUMBER_OF_TASKS }

/-- The PASS report line of `prvMonitorTask` (line 271). -/
def passLine (n : Nat) : String :=
  "Message received from integer task - Status check #" ++ toString n ++ ": PASS"

/-- The FAIL report line of `prvMonitorTask` (line 276). -/
def failLine (n : Nat) : String :=
  "Message received from monitor timer - Status check #" ++ toString n ++ ": FAIL - Error detected!"

/-- One polling iteration of `prvMonitorTask` (lines 250-281): if the
`xPerformStatusCheck` flag is clear the task just delays (state unchanged,
no output); otherwise it clears the flag, performs one sweep, increments
`ulStatusCheckCount` (a `uint32_t`, hence mod `2 ^ 32`) and emits one report
line labeled with the new count and the sweep's PASS/FAIL outcome. -/
def prvMonitorTaskStep (s : DemoState) : DemoState × List String :=
  if s.xPerformStatusCheck = true then
    let sweepRes := xAreIntegerMathsTaskStillRunning s.xTaskCheck
    let newCount := (s.ulStatusCheckCount + 1) % 2 ^ 32
    let line := if sweepRes.1 = true then passLine newCount else failLine newCount
    ({ s with xTaskCheck := sweepRes.2,
              xPerformStatusCheck := false,
              ulStatusCheckCount := newCount }, [line])
  else
    (s, [])

/-- Timer callback `prvMonitorTimerCallback` (lines 285-294): sets the status-check flag. -/
def prvMonitorTimerCallback (s : DemoState) : DemoState :=
  { s with xPerformStatusCheck := true }

/-- Keyboard handler `vIntegerKeyboardInterruptHandler` (lines 298-326): on the status key it
prints an acknowledgment and sets `xPerformStatusCheck`; on the restart key it
only prints two lines; any other key is ignored. -/
def vIntegerKeyboardInterruptHandler (xKeyPressed : Char) (s : DemoState) :
    DemoState × List String :=
  if xKeyPressed = mainSTATUS_KEY then
    ({ s with xPerformStatusCheck := true }, ["Manual status check requested..."])
  else if xKeyPressed = mainRESTART_KEY then
    (s, ["Restarting integer math tasks...",
         "Note: Task restart requires system reset in this demo."])
  else
    (s, [])

/-- The state effect of a manual status request via the status key. -/
def manualCheckRequest (s : DemoState) : DemoState :=
  (vIntegerKeyboardInterruptHandler mainSTATUS_KEY s).1

/-! ### Fine-grained interleaving model of the single-slot registry

`taskSignal` runs inside `portENTER_CRITICAL`/`portEXIT_CRITICAL`
(lines 154-156), so it is one atomic event. `xAreIntegerMathsTaskStillRunning`
takes no critical section, so its read of `xTaskCheck[0]` (line 179) and its
clear (line 187) are separate atomic events between which other code may run. -/

inductive RaceEv where
  | sigEv
  | readEv
  | clearEv
deriving DecidableEq

/-- State of the fine-grained model: the single `xTaskCheck[0]` slot, the
monitor's local `xReturn` for the sweep in progress, and the list of completed
sweep results. -/
structure RaceState where
  slot : Bool
  xReturn : Bool
  reports : List Bool
deriving DecidableEq

/-- One atomic event: the worker's critical-section signal write, the sweep's
read of the slot into `xReturn`, or the sweep's clear-and-return. -/
def raceStep (s : RaceState) : RaceEv → RaceState
  | RaceEv.sigEv => { s with slot := true }
  | RaceEv.readEv => { s with xReturn := s.slot }
  | RaceEv.clearEv => { slot := false, xReturn := true, reports := s.reports ++ [s.xReturn] }

def raceRun (s : RaceState) (evs : List RaceEv) : RaceState :=
  evs.foldl raceStep s

/-- A schedule in which the worker's signal lands between the sweep's read and
its clear of the slot, followed by a second complete sweep. -/
def raceTrace : List RaceEv :=
  [RaceEv.readEv, RaceEv.sigEv, RaceEv.clearEv, RaceEv.readEv, RaceEv.clearEv]

/-! ### Coarse (operation-atomic) model of the registry -/

/-- Registry operations when each of `taskSignal` and the whole sweep executes
atomically (i.e. the discipline the spec describes). -/
inductive RegOp where
  | sigOp (i : Nat)
  | sweepAtomic
deriving DecidableEq

def regApply (slots : List Bool) : RegOp → List Bool
  | RegOp.sigOp i => taskSignal slots i
  | RegOp.sweepAtomic => (xAreIntegerMathsTaskStillRunning slots).2

def regRun (slots : List Bool) (ops : List RegOp) : List Bool :=
  ops.foldl regApply slots

/-! ### Helper lemmas -/

/-- Characterisation of the sweep loop: the returned flag is the accumulator
ANDed with the conjunction of all slots, and every slot comes back `false`. -/
theorem sweepLoop_spec (xs : List Bool) :
    ∀ acc, (sweepLoop xs acc).1 = (acc && xs.all (fun b => b)) ∧
      (sweepLoop xs acc).2 = List.replicate xs.length false := by
  induction xs with
  | nil => intro acc; simp [sweepLoop]
  | cons b rest ih =>
    intro acc
    have h := ih (if b = false then false else acc)
    refine ⟨?_, ?_⟩
    · show (sweepLoop rest (if b = false then false else acc)).1 = _
      rw [h.1]
      cases b <;> cases acc <;> simp
    · show (false :: (sweepLoop rest (if b = false then false else acc)).2) = _
      rw [h.2, List.length_cons, List.replicate_succ]

/-- A sweep of an all-`false` nonempty registry reports `false`. -/
theorem sweep_all_false (n : Nat) (hn : n ≠ 0) :
    (xAreIntegerMathsTaskStillRunning (List.replicate n false)).1 = false := by
  obtain ⟨m, rfl⟩ := Nat.exists_eq_succ_of_ne_zero hn
  have h := (sweepLoop_spec (List.replicate (m + 1) false) true).1
  rw [xAreIntegerMathsTaskStillRunning, h, List.replicate_succ]
  simp

/-- Once `sError` is latched, the worker run never changes the slot. -/
theorem workerRun_latched (vals : List Int) :
    ∀ slot, vCompeteingIntMathTaskRun vals true slot = (true, slot) := by
  induction vals with
  | nil => intro slot; rfl
  | cons v rest ih =>
    intro slot
    show vCompeteingIntMathTaskRun rest
      (vCompeteingIntMathTaskStep v true slot).1
      (vCompeteingIntMathTaskStep v true slot).2 = (true, slot)
    have hstep : vCompeteingIntMathTaskStep v true slot = (true, slot) := by
      simp [vCompeteingIntMathTaskStep]
    rw [hstep]
    exact ih slot

/-- With correct computations and no latched error, each worker iteration
keeps `sError` clear and leaves the slot set. -/
theorem workerRun_ok (n : Nat) :
    vCompeteingIntMathTaskRun (List.replicate n intMathCalculation) false true = (false, true) := by
  induction n with
  | zero => rfl
  | succ m ih =>
    rw [List.replicate_succ]
    show vCompeteingIntMathTaskRun (List.replicate m intMathCalculation)
      (vCompeteingIntMathTaskStep intMathCalculation false true).1
      (vCompeteingIntMathTaskStep intMathCalculation false true).2 = (false, true)
    have hstep : vCompeteingIntMathTaskStep intMathCalculation false true = (false, true) := by
      decide
    rw [hstep]
    exact ih

/-! ### Claim theorems -/

/-- C1: for every registry state, `xAreIntegerMathsTaskStillRunning` (sweep)
returns the logical AND of `checked_in` over all WorkerSlots — `true` iff every
slot is set, i.e. iff every slot received a signal since the previous sweep —
and, regardless of the individual results, every slot is reset to `false`. -/
theorem c1_sweep_read_and_clear (xs : List Bool) :
    (xAreIntegerMathsTaskStillRunning xs).1 = xs.all (fun b => b) ∧
    ((xAreIntegerMathsTaskStillRunning xs).1 = true ↔ ∀ b ∈ xs, b = true) ∧
    (xAreIntegerMathsTaskStillRunning xs).2 = List.replicate xs.length false := by
  have h := sweepLoop_spec xs true
  have h1 : (xAreIntegerMathsTaskStillRunning xs).1 = xs.all (fun b => b) := by
    rw [xAreIntegerMathsTaskStillRunning, h.1, Bool.true_and]
  refine ⟨h1, ?_, h.2⟩
  rw [h1, List.all_eq_true]

/-- C2: once one iteration's computed value diverges from the expected
constant, the worker run latches `sError` and never changes its WorkerSlot on
any later iteration, whatever the subsequent computed values are: the run ends
with the slot exactly as it was before the divergent iteration. -/
theorem c2_error_latched (lValue : Int) (vals : List Int) (sError slot : Bool)
    (hdiv : lValue ≠ intgEXPECTED_ANSWER) :
    vCompeteingIntMathTaskRun (lValue :: vals) sError slot = (true, slot) := by
  show vCompeteingIntMathTaskRun vals
    (vCompeteingIntMathTaskStep lValue sError slot).1
    (vCompeteingIntMathTaskStep lValue sError slot).2 = (true, slot)
  have hstep : vCompeteingIntMathTaskStep lValue sError slot = (true, slot) := by
    simp [vCompeteingIntMathTaskStep, hdiv]
  rw [hstep]
  exact workerRun_latched vals slot

/-- Witness for C2: a single divergent value (0) followed by two correct
values; the slot stays `false` for the whole run. -/
theorem c2_error_latched_witness :
    vCompeteingIntMathTaskRun (0 :: [intgEXPECTED_ANSWER, intgEXPECTED_ANSWER]) false false =
      (true, false) :=
  c2_error_latched 0 [intgEXPECTED_ANSWER, intgEXPECTED_ANSWER] false false (by decide)

/-- C3 counterexample: `intgEXPECTED_ANSWER` is not `-100537`. With the
operands 123, 234567, -3, 7 and C truncating signed division, the macro
evaluates to `-100581`. -/
theorem c3_expected_answer_counterexample : ¬ (intgEXPECTED_ANSWER = -100537) := by
  decide

/-- C3 (amended): `intgEXPECTED_ANSWER` is the left-to-right formula
`((123 + 234567) * -3) / 7` under truncating (toward-zero) signed division,
and its value is `-100581`. -/
theorem c3_expected_answer_value :
    intgEXPECTED_ANSWER = Int.tdiv ((123 + 234567) * (-3)) 7 ∧
    intgEXPECTED_ANSWER = -100581 := by
  decide

/-- C6: starting from a nonempty registry in which every slot is set (at least
one signal preceded the first sweep), two consecutive sweeps with no
intervening signal return `true` then `false`. -/
theorem c6_consecutive_sweeps (xs : List Bool) (hne : xs ≠ [])
    (hall : xs.all (fun b => b) = true) :
    (xAreIntegerMathsTaskStillRunning xs).1 = true ∧
    (xAreIntegerMathsTaskStillRunning ((xAreIntegerMathsTaskStillRunning xs).2)).1 = false := by
  have h := sweepLoop_spec xs true
  constructor
  · rw [xAreIntegerMathsTaskStillRunning, h.1, hall, Bool.and_true]
  · rw [show (xAreIntegerMathsTaskStillRunning xs).2 = List.replicate xs.length false from h.2]
    exact sweep_all_false xs.length (by simpa using hne)

/-- Witness for C6 at the one-slot registry with its slot signalled. -/
theorem c6_consecutive_sweeps_witness :
    (xAreIntegerMathsTaskStillRunning [true]).1 = true ∧
    (xAreIntegerMathsTaskStillRunning ((xAreIntegerMathsTaskStillRunning [true]).2)).1 = false :=
  c6_consecutive_sweeps [true] (by decide) (by decide)

/-- C10: in an uncorrupted run the worker's computed `lValue` equals
`intgEXPECTED_ANSWER` on every iteration, so `sError` is never latched and the
worker leaves `true` in its WorkerSlot after every iteration (any number
`n ≠ 0` of iterations, from any initial slot value). -/
theorem c10_uncorrupted_run (n : Nat) (slot : Bool) (hn : n ≠ 0) :
    intMathCalculation = intgEXPECTED_ANSWER ∧
    vCompeteingIntMathTaskRun (List.replicate n intMathCalculation) false slot = (false, true) := by
  refine ⟨by decide, ?_⟩
  obtain ⟨m, rfl⟩ := Nat.exists_eq_succ_of_ne_zero hn
  rw [List.replicate_succ]
  show vCompeteingIntMathTaskRun (List.replicate m intMathCalculation)
    (vCompeteingIntMathTaskStep intMathCalculation false slot).1
    (vCompeteingIntMathTaskStep intMathCalculation false slot).2 = (false, true)
  have hstep : vCompeteingIntMathTaskStep intMathCalculation false slot = (false, true) := by
    cases slot <;> decide
  rw [hstep]
  exact workerRun_ok m

/-- Witness for C10: three uncorrupted iterations from a clear slot. -/
theorem c10_uncorrupted_run_witness :
    intMathCalculation = intgEXPECTED_ANSWER ∧
    vCompeteingIntMathTaskRun (List.replicate 3 intMathCalculation) false false = (false, true) :=
  c10_uncorrupted_run 3 false (by decide)

/-- Unfolding of a monitor iteration that observes the flag set. -/
theorem prvMonitorTaskStep_pending (s : DemoState) (h : s.xPerformStatusCheck = true) :
    prvMonitorTaskStep s =
      ({ s with xTaskCheck := (xAreIntegerMathsTaskStillRunning s.xTaskCheck).2,
                xPerformStatusCheck := false,
                ulStatusCheckCount := (s.ulStatusCheckCount + 1) % 2 ^ 32 },
       [if (xAreIntegerMathsTaskStillRunning s.xTaskCheck).1 = true
          then passLine ((s.ulStatusCheckCount + 1) % 2 ^ 32)
          else failLine ((s.ulStatusCheckCount + 1) % 2 ^ 32)]) := by
  rw [prvMonitorTaskStep, if_pos h]

/-- Unfolding of a monitor iteration that observes the flag clear: the task
just delays, with no state change and no output. -/
theorem prvMonitorTaskStep_idle (s : DemoState) (h : s.xPerformStatusCheck = false) :
    prvMonitorTaskStep s = (s, []) := by
  rw [prvMonitorTaskStep, if_neg]
  rw [h]
  exact Bool.false_ne_true

/-- The manual status request (status key) only sets the flag. -/
theorem manualCheckRequest_eq (s : DemoState) :
    manualCheckRequest s = { s with xPerformStatusCheck := true } := by
  rw [manualCheckRequest, vIntegerKeyboardInterruptHandler, if_pos rfl]

/-- Both check producers — the timer callback and the manual status key — have
the same state effect: they set `xPerformStatusCheck` and nothing else. -/
theorem request_sets_flag (h : DemoState → DemoState)
    (hh : h = prvMonitorTimerCallback ∨ h = manualCheckRequest) (s : DemoState) :
    h s = { s with xPerformStatusCheck := true } := by
  rcases hh with rfl | rfl
  · rfl
  · exact manualCheckRequest_eq s

/-- C4: when the monitor consumes a check request (flag observed `true`), the
iteration clears `xPerformStatusCheck`, performs one sweep (the slots end in
the sweep's cleared state), increments `ulStatusCheckCount` by exactly one
(no `uint32_t` wraparound under the stated bound), emits exactly one report
line labeled with the new counter value and the sweep's PASS/FAIL outcome,
and unconditionally returns to Idle: with no new request, the next iteration
changes nothing and emits nothing. -/
theorem c4_checking_transition (s : DemoState)
    (hpend : s.xPerformStatusCheck = true)
    (hcnt : s.ulStatusCheckCount + 1 < 2 ^ 32) :
    (prvMonitorTaskStep s).1.xPerformStatusCheck = false ∧
    (prvMonitorTaskStep s).1.xTaskCheck = (xAreIntegerMathsTaskStillRunning s.xTaskCheck).2 ∧
    (prvMonitorTaskStep s).1.ulStatusCheckCount = s.ulStatusCheckCount + 1 ∧
    (prvMonitorTaskStep s).2.length = 1 ∧
    (prvMonitorTaskStep s).2 =
      [if (xAreIntegerMathsTaskStillRunning s.xTaskCheck).1 = true
         then passLine (s.ulStatusCheckCount + 1)
         else failLine (s.ulStatusCheckCount + 1)] ∧
    prvMonitorTaskStep (prvMonitorTaskStep s).1 = ((prvMonitorTaskStep s).1, []) := by
  have hm : (s.ulStatusCheckCount + 1) % 2 ^ 32 = s.ulStatusCheckCount + 1 :=
    Nat.mod_eq_of_lt hcnt
  rw [prvMonitorTaskStep_pending s hpend]
  refine ⟨rfl, rfl, hm, rfl, by rw [hm], ?_⟩
  exact prvMonitorTaskStep_idle _ rfl

/-- Witness for C4 at a concrete pending state with one signalled slot. -/
theorem c4_checking_transition_witness :
    (prvMonitorTaskStep (DemoState.mk [true] true 0 1)).1.xPerformStatusCheck = false ∧
    (prvMonitorTaskStep (DemoState.mk [true] true 0 1)).1.xTaskCheck =
      (xAreIntegerMathsTaskStillRunning (DemoState.mk [true] true 0 1).xTaskCheck).2 ∧
    (prvMonitorTaskStep (DemoState.mk [true] true 0 1)).1.ulStatusCheckCount =
      (DemoState.mk [true] true 0 1).ulStatusCheckCount + 1 ∧
    (prvMonitorTaskStep (DemoState.mk [true] true 0 1)).2.length = 1 ∧
    (prvMonitorTaskStep (DemoState.mk [true] true 0 1)).2 =
      [if (xAreIntegerMathsTaskStillRunning (DemoState.mk [true] true 0 1).xTaskCheck).1 = true
         then passLine ((DemoState.mk [true] true 0 1).ulStatusCheckCount + 1)
         else failLine ((DemoState.mk [true] true 0 1).ulStatusCheckCount + 1)] ∧
    prvMonitorTaskStep (prvMonitorTaskStep (DemoState.mk [true] true 0 1)).1 =
      ((prvMonitorTaskStep (DemoState.mk [true] true 0 1)).1, []) :=
  c4_checking_transition (DemoState.mk [true] true 0 1) rfl (by decide)

/-- C5: when two check requests (each either the timer callback or the manual
status key) both set the flag before the monitor consumes it, exactly one
Checking transition occurs: one report line is emitted, the counter increases
by exactly 1 (not 2), and the following monitor iteration consumes nothing and
leaves the counter unchanged. -/
theorem c5_flag_conflation (s : DemoState) (f g : DemoState → DemoState)
    (hf : f = prvMonitorTimerCallback ∨ f = manualCheckRequest)
    (hg : g = prvMonitorTimerCallback ∨ g = manualCheckRequest)
    (hcnt : s.ulStatusCheckCount + 1 < 2 ^ 32) :
    (prvMonitorTaskStep (g (f s))).2.length = 1 ∧
    (prvMonitorTaskStep (g (f s))).1.ulStatusCheckCount = s.ulStatusCheckCount + 1 ∧
    (prvMonitorTaskStep ((prvMonitorTaskStep (g (f s))).1)).2 = [] ∧
    (prvMonitorTaskStep ((prvMonitorTaskStep (g (f s))).1)).1.ulStatusCheckCount =
      s.ulStatusCheckCount + 1 := by
  have hm : (s.ulStatusCheckCount + 1) % 2 ^ 32 = s.ulStatusCheckCount + 1 :=
    Nat.mod_eq_of_lt hcnt
  have hgf : g (f s) = { s with xPerformStatusCheck := true } := by
    rw [request_sets_flag f hf s, request_sets_flag g hg]
  rw [hgf, prvMonitorTaskStep_pending _ rfl]
  refine ⟨rfl, hm, ?_, ?_⟩
  · rw [prvMonitorTaskStep_idle _ rfl]
  · rw [prvMonitorTaskStep_idle _ rfl]
    exact hm

/-- Witness for C5: one timer request and one manual request both land before
the monitor consumes; the counter goes from 0 to 1, not 2. -/
theorem c5_flag_conflation_witness :
    (prvMonitorTaskStep (manualCheckRequest
        (prvMonitorTimerCallback (DemoState.mk [true] false 0 1)))).2.length = 1 ∧
    (prvMonitorTaskStep (manualCheckRequest
        (prvMonitorTimerCallback (DemoState.mk [true] false 0 1)))).1.ulStatusCheckCount =
      (DemoState.mk [true] false 0 1).ulStatusCheckCount + 1 ∧
    (prvMonitorTaskStep ((prvMonitorTaskStep (manualCheckRequest
        (prvMonitorTimerCallback (DemoState.mk [true] false 0 1)))).1)).2 = [] ∧
    (prvMonitorTaskStep ((prvMonitorTaskStep (manualCheckRequest
        (prvMonitorTimerCallback (DemoState.mk [true] false 0 1)))).1)).1.ulStatusCheckCount =
      (DemoState.mk [true] false 0 1).ulStatusCheckCount + 1 :=
  c5_flag_conflation (DemoState.mk [true] false 0 1) prvMonitorTimerCallback manualCheckRequest
    (Or.inl rfl) (Or.inr rfl) (by decide)

/-- C7: the restart key only emits its two acknowledgment lines and leaves the
whole modelled state unchanged: the WorkerSlots, the `xPerformStatusCheck`
flag, the counter and the number of created tasks are all untouched. -/
theorem c7_restart_noop (s : DemoState) :
    vIntegerKeyboardInterruptHandler mainRESTART_KEY s =
      (s, ["Restarting integer math tasks...",
           "Note: Task restart requires system reset in this demo."]) ∧
    (vIntegerKeyboardInterruptHandler mainRESTART_KEY s).1.xTaskCheck = s.xTaskCheck ∧
    (vIntegerKeyboardInterruptHandler mainRESTART_KEY s).1.xPerformStatusCheck =
      s.xPerformStatusCheck ∧
    (vIntegerKeyboardInterruptHandler mainRESTART_KEY s).1.ulStatusCheckCount =
      s.ulStatusCheckCount ∧
    (vIntegerKeyboardInterruptHandler mainRESTART_KEY s).1.uxTasksCreated = s.uxTasksCreated := by
  have h : vIntegerKeyboardInterruptHandler mainRESTART_KEY s =
      (s, ["Restarting integer math tasks...",
           "Note: Task restart requires system reset in this demo."]) := by
    rw [vIntegerKeyboardInterruptHandler, if_neg (by decide), if_pos rfl]
  rw [h]
  exact ⟨rfl, rfl, rfl, rfl, rfl⟩

/-- C9: the origin wording of the report line is determined solely by the
sweep result, not by the trigger source: a timer-triggered check and a
manually triggered check from the same state produce identical monitor
behaviour, and the emitted line is the `passLine` ("integer task" wording)
exactly when the sweep returns `true` and the `failLine` ("monitor timer"
wording) otherwise. -/
theorem c9_label_from_sweep_only (s : DemoState) :
    prvMonitorTaskStep (prvMonitorTimerCallback s) =
      prvMonitorTaskStep (manualCheckRequest s) ∧
    (prvMonitorTaskStep (prvMonitorTimerCallback s)).2 =
      [if (xAreIntegerMathsTaskStillRunning s.xTaskCheck).1 = true
         then passLine ((s.ulStatusCheckCount + 1) % 2 ^ 32)
         else failLine ((s.ulStatusCheckCount + 1) % 2 ^ 32)] := by
  constructor
  · rw [manualCheckRequest_eq s]
    rfl
  · rw [show prvMonitorTimerCallback s = { s with xPerformStatusCheck := true } from rfl]
    rw [prvMonitorTaskStep_pending _ rfl]

/-- Setting any slot to `true` makes that slot read `true` (when in range). -/
theorem set_true_get (l : List Bool) :
    ∀ i : Nat, i < l.length → (l.set i true)[i]? = some true := by
  induction l with
  | nil => intro i h; exact absurd h (by simp)
  | cons b t ih =>
    intro i h
    cases i with
    | zero => simp
    | succ j =>
      show (b :: t.set j true)[j + 1]? = some true
      rw [List.getElem?_cons_succ]
      exact ih j (by simpa using h)

/-- Setting some slot to `true` never clears a slot that reads `true`. -/
theorem set_keeps_true (l : List Bool) :
    ∀ i j : Nat, l[i]? = some true → (l.set j true)[i]? = some true := by
  induction l with
  | nil => intro i j h; simp at h
  | cons b t ih =>
    intro i j h
    cases j with
    | zero =>
      cases i with
      | zero => simp
      | succ k => simpa using h
    | succ m =>
      cases i with
      | zero => simpa using h
      | succ k =>
        show (b :: t.set m true)[k + 1]? = some true
        rw [List.getElem?_cons_succ]
        exact ih k m (by simpa using h)

/-- Running any sweep-free sequence of registry operations preserves a slot
that reads `true`. -/
theorem regRun_no_sweep_keeps (ops : List RegOp) :
    ∀ (l : List Bool) (i : Nat), (∀ op ∈ ops, op ≠ RegOp.sweepAtomic) →
      l[i]? = some true → (regRun l ops)[i]? = some true := by
  induction ops with
  | nil => intro l i _ h; exact h
  | cons op rest ih =>
    intro l i hops h
    have hop : op ≠ RegOp.sweepAtomic := hops op (List.mem_cons_self op rest)
    cases op with
    | sigOp j =>
      show (regRun (taskSignal l j) rest)[i]? = some true
      exact ih (taskSignal l j) i (fun o ho => hops o (List.mem_cons_of_mem _ ho))
        (set_keeps_true l i j h)
    | sweepAtomic => exact absurd rfl hop

/-- C8 counterexample: in the fine-grained model of the source — where the
signal write (critical section, lines 154-156) is one atomic event but the
sweep's read (line 179) and clear (line 187) are separate events because
`xAreIntegerMathsTaskStillRunning` takes no critical section — the schedule
`raceTrace` issues exactly one signal, concurrent with the first sweep, and
both that sweep and the next report `false`: the signal is dropped, contrary
to the claim that it is visible to that sweep or the next. -/
theorem c8_lost_signal_counterexample :
    raceTrace.count RaceEv.sigEv = 1 ∧
    (raceRun (RaceState.mk false true []) raceTrace).reports = [false, false] ∧
    (raceRun (RaceState.mk false true []) raceTrace).reports.count true = 0 := by
  decide

/-- C8 (amended): when `signal()` and the whole `sweep()` each execute
atomically (the mutual-exclusion discipline the spec describes), no signal is
lost: a signal to slot `i` that completes before a sweep begins, with only
sweep-free operations in between, leaves slot `i` reading `true` when that
sweep starts, so the sweep observes it. -/
theorem c8_signal_visible_amended (slots : List Bool) (i : Nat) (mid : List RegOp)
    (hi : i < slots.length)
    (hmid : ∀ op ∈ mid, op ≠ RegOp.sweepAtomic) :
    (regRun (taskSignal slots i) mid)[i]? = some true :=
  regRun_no_sweep_keeps mid (taskSignal slots i) i hmid (set_true_get slots i hi)

/-- Witness for the amended C8: one signal, one further signal in between, and
the slot still reads `true` at the sweep. -/
theorem c8_signal_visible_amended_witness :
    (regRun (taskSignal [false] 0) [RegOp.sigOp 0])[0]? = some true :=
  c8_signal_visible_amended [false] 0 [RegOp.sigOp 0] (by decide) (by decide)

end IntegerMathDemo
